import Mathlib

/-!
Shallow embedding of `src/windows/flutter_openseeface_plugin_c_api.cpp`,
the Windows C-API registration shim of the `flutter_openseeface_plugin`
package, together with theorems settling the specification claims about it.

The shim is a single function:

  void FlutterOpenseefacePluginCApiRegisterWithRegistrar(
      FlutterDesktopPluginRegistrarRef registrar) \x7b
    flutter_openseeface_plugin::FlutterOpenseefacePlugin::RegisterWithRegistrar(
        flutter::PluginRegistrarManager::GetInstance()
            ->GetRegistrar<flutter::PluginRegistrarWindows>(registrar));
  \x7d

We embed the process state visible to this code as `HostState`, the host-side
primitives (`GetInstance`, `GetRegistrar`) as deterministic functions on that
state, and the shim itself as a pure state-passing function that additionally
returns the ordered trace of forwarded calls it performs, so that claims about
call order, call counts and handle forwarding can be stated.
-/

/-- Opaque registrar handle (`FlutterDesktopPluginRegistrarRef`): an opaque
reference value owned by the host.  We model the reference value as a `Nat`. -/
abbrev FlutterDesktopPluginRegistrarRef := Nat

/-- A typed Windows registrar view (`flutter::PluginRegistrarWindows`),
identified by an opaque value owned by the host. -/
abbrev PluginRegistrarWindows := Nat

/-- The host's registrar-manager singleton (`flutter::PluginRegistrarManager`):
it resolves an opaque registrar handle to the typed Windows registrar view for
that handle. -/
structure PluginRegistrarManager where
  registrarOf : FlutterDesktopPluginRegistrarRef → PluginRegistrarWindows

/-- The process-wide state visible to the shim: the host's registrar-manager
singleton, the host's active plugin registry (a list of registered plugin
names), and an abstract component standing for every other piece of process
state, used to state frame conditions. -/
structure HostState where
  manager : PluginRegistrarManager
  registry : List String
  otherState : Nat

/-- Name under which the plugin appears in the host's registry. -/
def pluginName : String := "FlutterOpenseefacePlugin"

/-- One forwarded call performed by the shim, recorded in order. -/
inductive Event where
  | getInstance : Event
  | getRegistrar (h : FlutterDesktopPluginRegistrarRef) : Event
  | registerWithRegistrar (r : PluginRegistrarWindows) : Event
  deriving DecidableEq

/-- Constructor tag of an event, used to compare the shape of two traces
independently of the data the events carry. -/
def Event.tag : Event → Nat
  | .getInstance => 0
  | .getRegistrar _ => 1
  | .registerWithRegistrar _ => 2

/-- Host primitive `flutter::PluginRegistrarManager::GetInstance()`: returns
the process-wide registrar-manager singleton held in the host state. -/
def PluginRegistrarManager.GetInstance (s : HostState) : PluginRegistrarManager :=
  s.manager

/-- Host primitive
`PluginRegistrarManager::GetRegistrar<flutter::PluginRegistrarWindows>`:
resolves the typed Windows registrar view for a handle. -/
def PluginRegistrarManager.GetRegistrar (m : PluginRegistrarManager)
    (registrar : FlutterDesktopPluginRegistrarRef) : PluginRegistrarWindows :=
  m.registrarOf registrar

/-- Modelled from the spec: the body of
`flutter_openseeface_plugin::FlutterOpenseefacePlugin::RegisterWithRegistrar`
is declared in `flutter_openseeface_plugin.h` but its definition is not among
the provided sources.  Per the spec it "adds the plugin to the host's active
registry" and has "no other observable effects", so we model it as appending
the plugin's name to the registry component of the state and leaving every
other component unchanged. -/
def FlutterOpenseefacePlugin.RegisterWithRegistrar
    (r : PluginRegistrarWindows) (s : HostState) : HostState :=
  { s with registry := s.registry ++ [pluginName] }

/-- Embedding of `FlutterOpenseefacePluginCApiRegisterWithRegistrar` from
`src/windows/flutter_openseeface_plugin_c_api.cpp`.  The C++ body is a single
expression statement; its evaluation order is: obtain the registrar-manager
singleton, resolve the typed Windows registrar for the received handle, then
invoke the plugin class's static registration method on that typed registrar.
The result is the C++ return value (unit: the function returns `void`), the
state after the call, and the ordered trace of forwarded calls. -/
def FlutterOpenseefacePluginCApiRegisterWithRegistrar
    (s : HostState) (registrar : FlutterDesktopPluginRegistrarRef) :
    Unit × HostState × List Event :=
  let mgr := PluginRegistrarManager.GetInstance s
  let typed := mgr.GetRegistrar registrar
  let s' := FlutterOpenseefacePlugin.RegisterWithRegistrar typed s
  ((), s', [Event.getInstance, Event.getRegistrar registrar,
            Event.registerWithRegistrar typed])

/-- Return value of a call to the shim. -/
def resultOf (s : HostState) (registrar : FlutterDesktopPluginRegistrarRef) : Unit :=
  (FlutterOpenseefacePluginCApiRegisterWithRegistrar s registrar).1

/-- State after a call to the shim. -/
def stateAfter (s : HostState) (registrar : FlutterDesktopPluginRegistrarRef) : HostState :=
  (FlutterOpenseefacePluginCApiRegisterWithRegistrar s registrar).2.1

/-- Ordered trace of forwarded calls performed by one call to the shim. -/
def traceOf (s : HostState) (registrar : FlutterDesktopPluginRegistrarRef) : List Event :=
  (FlutterOpenseefacePluginCApiRegisterWithRegistrar s registrar).2.2

/-- Sample state used by the concrete witnesses below. -/
def sampleState : HostState :=
  { manager := ⟨fun h => h + 100⟩, registry := [], otherState := 42 }

/-- Sample state whose manager resolves every handle to the same typed
registrar, used by the witness for the non-retention claim. -/
def collapsedState : HostState :=
  { manager := ⟨fun _ => 7⟩, registry := ["other_plugin"], otherState := 5 }

/-- C1: for every state and registrar handle, the shim performs exactly these
forwarded calls in this order: obtain the registrar-manager singleton, resolve
from it the typed Windows registrar view for the received handle, and invoke
the plugin class's static registration method on that typed registrar; the
final state is exactly that registration applied to the resolved registrar. -/
theorem c1_registration_steps_in_order
    (s : HostState) (registrar : FlutterDesktopPluginRegistrarRef) :
    traceOf s registrar =
      [Event.getInstance,
       Event.getRegistrar registrar,
       Event.registerWithRegistrar
         ((PluginRegistrarManager.GetInstance s).GetRegistrar registrar)] ∧
    stateAfter s registrar =
      FlutterOpenseefacePlugin.RegisterWithRegistrar
        ((PluginRegistrarManager.GetInstance s).GetRegistrar registrar) s :=
  ⟨rfl, rfl⟩

/-- C2: if the plugin is not already registered, one call to the registration
entry point leaves the plugin present in the host's registry exactly once, the
static registration routine is forwarded exactly one time in the call trace,
and the call returns normally with unit. -/
theorem c2_registered_exactly_once
    (s : HostState) (registrar : FlutterDesktopPluginRegistrarRef)
    (h : pluginName ∉ s.registry) :
    (stateAfter s registrar).registry.count pluginName = 1 ∧
    ((traceOf s registrar).filter (fun e => e.tag == 2)).length = 1 ∧
    resultOf s registrar = () := by
  refine ⟨?_, rfl, rfl⟩
  simp [stateAfter, FlutterOpenseefacePluginCApiRegisterWithRegistrar,
        FlutterOpenseefacePlugin.RegisterWithRegistrar,
        List.count_eq_zero_of_not_mem h]

/-- Witness for C2 at a concrete state with an empty registry. -/
theorem c2_registered_exactly_once_witness :
    pluginName ∉ sampleState.registry ∧
    ((stateAfter sampleState 3).registry.count pluginName = 1 ∧
     ((traceOf sampleState 3).filter (fun e => e.tag == 2)).length = 1 ∧
     resultOf sampleState 3 = ()) :=
  ⟨by decide, c2_registered_exactly_once sampleState 3 (by decide)⟩

/-- C3: for every input, the registration entry point takes exactly one
registrar handle and its result component is unit (the function returns no
value). -/
theorem c3_returns_unit
    (s : HostState) (registrar : FlutterDesktopPluginRegistrarRef) :
    resultOf s registrar = () :=
  rfl

/-- C4: the entry point has no error path: for every state and every handle,
including arbitrary (invalid) ones, its trace has the same single
unconditional shape — one singleton lookup, one registrar resolution, one
forwarded registration — independent of the handle's value, and the call
always completes normally. -/
theorem c4_no_error_path
    (s₁ s₂ : HostState) (r₁ r₂ : FlutterDesktopPluginRegistrarRef) :
    (traceOf s₁ r₁).map Event.tag = [0, 1, 2] ∧
    (traceOf s₁ r₁).map Event.tag = (traceOf s₂ r₂).map Event.tag ∧
    resultOf s₁ r₁ = () :=
  ⟨rfl, rfl, rfl⟩

/-- C5: the only state component the entry point mutates is the host's plugin
registry (extended by the forwarded registration); the registrar-manager
singleton and every other component of the process state are unchanged
between entry and return. -/
theorem c5_frame_only_registry
    (s : HostState) (registrar : FlutterDesktopPluginRegistrarRef) :
    (stateAfter s registrar).manager = s.manager ∧
    (stateAfter s registrar).otherState = s.otherState ∧
    (stateAfter s registrar).registry = s.registry ++ [pluginName] :=
  ⟨rfl, rfl, rfl⟩

/-- C6: the handle is only borrowed and not retained: no copy of the registrar
reference survives past the return, so two calls whose handles the host's
manager resolves to the same typed registrar leave identical final states —
the final state carries no dependence on the handle value itself. -/
theorem c6_handle_not_retained
    (s : HostState) (r₁ r₂ : FlutterDesktopPluginRegistrarRef)
    (h : s.manager.registrarOf r₁ = s.manager.registrarOf r₂) :
    stateAfter s r₁ = stateAfter s r₂ :=
  rfl

/-- Witness for C6 at a concrete state whose manager resolves two distinct
handles to the same typed registrar. -/
theorem c6_handle_not_retained_witness :
    collapsedState.manager.registrarOf 1 = collapsedState.manager.registrarOf 2 ∧
    stateAfter collapsedState 1 = stateAfter collapsedState 2 :=
  ⟨rfl, c6_handle_not_retained collapsedState 1 2 rfl⟩

/-- C7: the entry point is a straight-line terminating computation: for every
input its trace is a fixed finite sequence of three calls, and the forwarded
registration call is contained in the trace and its effect is already present
in the state at return (the registration completes before the entry point
returns). -/
theorem c7_straight_line_terminates
    (s : HostState) (registrar : FlutterDesktopPluginRegistrarRef) :
    (traceOf s registrar).length = 3 ∧
    Event.registerWithRegistrar
        ((PluginRegistrarManager.GetInstance s).GetRegistrar registrar) ∈
      traceOf s registrar ∧
    stateAfter s registrar =
      FlutterOpenseefacePlugin.RegisterWithRegistrar
        ((PluginRegistrarManager.GetInstance s).GetRegistrar registrar) s := by
  refine ⟨rfl, ?_, rfl⟩
  simp [traceOf, FlutterOpenseefacePluginCApiRegisterWithRegistrar]

/-- C8: the handle value forwarded to the registrar-manager's typed-registrar
lookup is exactly the handle received as parameter: the trace contains the
lookup at the received handle, and every lookup event in the trace carries
precisely that handle, unmodified. -/
theorem c8_handle_forwarded_unchanged
    (s : HostState) (registrar h : FlutterDesktopPluginRegistrarRef)
    (hmem : Event.getRegistrar h ∈ traceOf s registrar) :
    h = registrar ∧ Event.getRegistrar registrar ∈ traceOf s registrar := by
  refine ⟨?_, by simp [traceOf, FlutterOpenseefacePluginCApiRegisterWithRegistrar]⟩
  simpa [traceOf, FlutterOpenseefacePluginCApiRegisterWithRegistrar] using hmem

/-- Witness for C8 at a concrete state and handle. -/
theorem c8_handle_forwarded_unchanged_witness :
    Event.getRegistrar 3 ∈ traceOf sampleState 3 ∧
    (3 = 3 ∧ Event.getRegistrar 3 ∈ traceOf sampleState 3) :=
  ⟨by decide, c8_handle_forwarded_unchanged sampleState 3 3 (by decide)⟩

/-- C9: the entry point is deterministic: two invocations starting from
componentwise-equal host states and equal registrar handles return the same
result, perform the identical trace of forwarded calls, and leave identical
final states. -/
theorem c9_deterministic
    (s₁ s₂ : HostState) (r₁ r₂ : FlutterDesktopPluginRegistrarRef)
    (hm : s₁.manager = s₂.manager) (hreg : s₁.registry = s₂.registry)
    (ho : s₁.otherState = s₂.otherState) (hr : r₁ = r₂) :
    FlutterOpenseefacePluginCApiRegisterWithRegistrar s₁ r₁ =
      FlutterOpenseefacePluginCApiRegisterWithRegistrar s₂ r₂ := by
  have h12 : s₁ = s₂ := by
    cases s₁
    cases s₂
    simp_all
  rw [h12, hr]

/-- Witness for C9 at a concrete state and handle. -/
theorem c9_deterministic_witness :
    sampleState.manager = sampleState.manager ∧
    sampleState.registry = sampleState.registry ∧
    sampleState.otherState = sampleState.otherState ∧
    (3 : FlutterDesktopPluginRegistrarRef) = 3 ∧
    FlutterOpenseefacePluginCApiRegisterWithRegistrar sampleState 3 =
      FlutterOpenseefacePluginCApiRegisterWithRegistrar sampleState 3 :=
  ⟨rfl, rfl, rfl, rfl, c9_deterministic sampleState sampleState 3 3 rfl rfl rfl rfl⟩
